import Mathlib

/-
  Verification development for the session-lifecycle engine of the
  Accurate Cyber Defense Network Traffic Generator Bot (a Python console
  tool driving a traffic-generation session and a monitoring session).

  The Python source is shallowly embedded below: pure helpers become Lean
  functions, the mutable bot object becomes an explicit BotState record,
  the two background loops become fuel-indexed recursive functions over
  streams of externally observed events (unit-of-work outcomes, the shared
  active flag over time, probe outcomes), and the operating-system
  primitives the code calls (inet_aton, connect_ex, ping output) are
  modelled by their documented input/output behaviour.
-/

namespace TrafficBot

/-! ## Character classes (ASCII, as used by the C library and CPython) -/

def isDigitChar (c : Char) : Bool := decide (48 ≤ c.toNat) && decide (c.toNat ≤ 57)

def isOctChar (c : Char) : Bool := decide (48 ≤ c.toNat) && decide (c.toNat ≤ 55)

def isHexChar (c : Char) : Bool :=
  isDigitChar c || (decide (97 ≤ c.toNat) && decide (c.toNat ≤ 102))
    || (decide (65 ≤ c.toNat) && decide (c.toNat ≤ 70))

/-- The six C-locale whitespace characters recognised by isspace. -/
def isSpaceChar (c : Char) : Bool :=
  c.toNat = 32 || c.toNat = 9 || c.toNat = 10 || c.toNat = 11 || c.toNat = 12 || c.toNat = 13

def isAsciiChar (c : Char) : Bool := decide (c.toNat ≤ 127)

/-- Numeric value of a digit character in bases up to 16 (0 on other input). -/
def hexVal (c : Char) : Nat :=
  if isDigitChar c then c.toNat - 48
  else if decide (97 ≤ c.toNat) && decide (c.toNat ≤ 102) then c.toNat - 87
  else if decide (65 ≤ c.toNat) && decide (c.toNat ≤ 70) then c.toNat - 55
  else 0

/-- Value of a digit string in the given base, accumulating onto acc. -/
def digitsVal (base : Nat) : Nat → List Char → Nat
  | acc, [] => acc
  | acc, c :: cs => digitsVal base (acc * base + hexVal c) cs

/-! ## Model of socket.inet_aton (glibc numbers-and-dots notation)

The source validates addresses with socket.inet_aton (CPython delegates to
the C library).  A numeral is read as by strtoul with base 0: a 0x or 0X
prefix means hexadecimal, a leading 0 means octal, otherwise decimal.  Up
to four numerals separated by dots are accepted; every numeral before a
dot must be at most 255, the final numeral is bounded by the number of
parts (32, 24, 16 or 8 remaining bits), values above 2^32-1 are rejected,
and the character after the final numeral must be the end of the string or
an ASCII whitespace character (anything after such whitespace is ignored,
as in the C implementation). -/

/-- One strtoul base-0 numeral at the head of the list: its value and the
remaining characters.  The caller has checked the head is a digit. -/
def strtoul0 (l : List Char) : Nat × List Char :=
  match l with
  | [] => (0, [])
  | c :: rest =>
    if c = '0' then
      match rest with
      | [] => (0, [])
      | c2 :: rest2 =>
        if c2 = 'x' ∨ c2 = 'X' then
          if (rest2.takeWhile isHexChar).isEmpty then (0, c2 :: rest2)
          else (digitsVal 16 0 (rest2.takeWhile isHexChar), rest2.dropWhile isHexChar)
        else (digitsVal 8 0 (rest.takeWhile isOctChar), rest.dropWhile isOctChar)
    else (digitsVal 10 0 ((c :: rest).takeWhile isDigitChar), (c :: rest).dropWhile isDigitChar)

/-- Upper bound for the final numeral when `remaining` more dots would
still be allowed: it must fit in the remaining bytes of the address. -/
def maxPart (remaining : Nat) : Nat := 256 ^ (remaining + 1) - 1

/-- The inet_aton parsing loop; `remaining` counts how many more dots are
allowed (starts at 3). -/
def inetAtonLoop : Nat → List Char → Bool
  | _, [] => false
  | remaining, c :: cs =>
    if isDigitChar c then
      let v := strtoul0 (c :: cs)
      if 4294967295 < v.1 then false
      else
        match v.2 with
        | [] => decide (v.1 ≤ maxPart remaining)
        | c2 :: rest2 =>
          if c2 = '.' then
            match remaining with
            | 0 => false
            | r + 1 => if 255 < v.1 then false else inetAtonLoop r rest2
          else if isAsciiChar c2 && isSpaceChar c2 then decide (v.1 ≤ maxPart remaining)
          else false
    else false

def inet_aton_chars (l : List Char) : Bool := inetAtonLoop 3 l

/-- validate_ip from the source: True exactly when socket.inet_aton
accepts the string (no exception), with no side effects. -/
def validate_ip (s : String) : Bool := inet_aton_chars s.data

/-! ## Model of Python int(str) parsing (base 10)

CPython int() strips surrounding whitespace, allows one optional sign and
then decimal digits with single underscores permitted only between two
digits.  (Non-ASCII decimal digits, also accepted by CPython, are outside
this ASCII model.) -/

def pyDigitVal (c : Char) : Nat := c.toNat - 48

def parseDigitsUGo : Nat → List Char → Option Nat
  | acc, [] => some acc
  | acc, c :: rest =>
    if c = '_' then
      match rest with
      | [] => none
      | c2 :: rest2 =>
        if isDigitChar c2 then parseDigitsUGo (acc * 10 + pyDigitVal c2) rest2 else none
    else if isDigitChar c then parseDigitsUGo (acc * 10 + pyDigitVal c) rest
    else none

def parseDigitsU : List Char → Option Nat
  | [] => none
  | c :: rest => if isDigitChar c then parseDigitsUGo (pyDigitVal c) rest else none

def stripPyWs (l : List Char) : List Char :=
  ((l.dropWhile isSpaceChar).reverse.dropWhile isSpaceChar).reverse

def pyIntParse (l : List Char) : Option Int :=
  match stripPyWs l with
  | [] => none
  | c :: rest =>
    if c = '+' then (parseDigitsU rest).map (fun n => (n : Int))
    else if c = '-' then (parseDigitsU rest).map (fun n => -(n : Int))
    else (parseDigitsU (c :: rest)).map (fun n => (n : Int))

/-- validate_port from the source, applied to a string argument:
int(port) then a range check, False on ValueError. -/
def validate_port (s : String) : Bool :=
  match pyIntParse s.data with
  | none => false
  | some k => decide (1 ≤ k ∧ k ≤ 65535)

/-- validate_port applied to an argument that is already an int (the
int conversion is then the identity). -/
def validate_port_int (k : Int) : Bool := decide (1 ≤ k ∧ k ≤ 65535)

/-! ## Decimal rendering (Python str of int) -/

def digitChar (n : Nat) : Char :=
  if n = 0 then '0' else if n = 1 then '1' else if n = 2 then '2'
  else if n = 3 then '3' else if n = 4 then '4' else if n = 5 then '5'
  else if n = 6 then '6' else if n = 7 then '7' else if n = 8 then '8'
  else '9'

def natDecCore : Nat → Nat → List Char
  | 0, _ => []
  | fuel + 1, n =>
    if n < 10 then [digitChar n] else natDecCore fuel (n / 10) ++ [digitChar (n % 10)]

def natDec (n : Nat) : List Char := natDecCore (n + 1) n

def intDec (i : Int) : List Char :=
  if i < 0 then '-' :: natDec i.natAbs else natDec i.natAbs

def intStr (i : Int) : String := String.mk (intDec i)

def natStr (n : Nat) : String := String.mk (natDec n)

/-! ## Bot data model

The mutable attributes of the CyberSecurityBot object.  Configuration
integers are Int (Python ints from json or int(value)); ports likewise.
Filesystem and network side effects (log file, Telegram requests) are
modelled as the lists of message strings the code hands to log_activity
and send_telegram_message. -/

structure Config where
  telegram_token : String
  telegram_chat_id : String
  monitoring_interval : Int
  traffic_generation_duration : Int
  max_packets_per_second : Int
  default_ports : List Int
  log_file : String
deriving DecidableEq

structure BotState where
  running : Bool
  monitoring_active : Bool
  traffic_generation_active : Bool
  current_target : Option String
  current_port : Option Int
  config : Config
deriving DecidableEq

/-- Result of a start call: the state after the synchronous part of the
call, the string returned to the caller, whether a background worker
thread was launched, the argument snapshot handed to that worker
(traffic_thread closes over the local ip, port, duration and pps;
monitoring_thread closes over ip only and reads self.config live, hence
none), and the log/Telegram messages emitted synchronously. -/
structure StartResult where
  state : BotState
  reply : String
  launched : Bool
  launchedArgs : Option (Int × Int × Int)
  messages : List String
deriving DecidableEq

structure StopResult where
  state : BotState
  reply : String
  messages : List String
deriving DecidableEq

/-- Python truthiness of an optional int argument (None and 0 are falsy). -/
def pyTruthyInt : Option Int → Bool
  | none => false
  | some n => !(n == 0)

/-- random.choice from default_ports, with the random draw supplied as an
index.  (On an empty list the Python call raises IndexError; that case is
outside this model and is not exercised by any theorem below.) -/
def listGetMod (l : List Int) (i : Nat) : Int := l.getD (i % l.length) 0

/-! ## ANSI constants and Python rendering helpers -/

def RED : String := "\x1b[91m"
def DARK_RED : String := "\x1b[31m"
def RED_BG : String := "\x1b[41m"
def RESET : String := "\x1b[0m"
def BOLD : String := "\x1b[1m"

def pyBoolStr (b : Bool) : String := if b then "True" else "False"

def pyOptStr : Option String → String
  | none => "None"
  | some s => s

def pyOptIntStr : Option Int → String
  | none => "None"
  | some i => intStr i

/-! ## Registry operations (methods of CyberSecurityBot) -/

/-- generate_traffic: validate, resolve defaults, set the shared state,
emit the start messages and launch traffic_thread.  The source performs
no already-active check for traffic generation. -/
def generate_traffic (b : BotState) (ip : String) (port duration pps : Option Int)
    (pick : Nat) : StartResult :=
  if !(validate_ip ip) then
    { state := b, reply := "Invalid IP address: " ++ ip, launched := false,
      launchedArgs := none, messages := [] }
  else if pyTruthyInt port && !(validate_port_int (port.getD 0)) then
    { state := b, reply := "Invalid port: " ++ intStr (port.getD 0), launched := false,
      launchedArgs := none, messages := [] }
  else
    let port1 : Int := if pyTruthyInt port then port.getD 0
      else listGetMod b.config.default_ports pick
    let dur : Int := if pyTruthyInt duration then duration.getD 0
      else b.config.traffic_generation_duration
    let rate : Int := if pyTruthyInt pps then pps.getD 0
      else b.config.max_packets_per_second
    let b' := { b with current_target := some ip, current_port := some port1,
                       traffic_generation_active := true }
    let m := "Starting traffic generation to " ++ ip ++ ":" ++ intStr port1 ++ " for "
      ++ intStr dur ++ " seconds at " ++ intStr rate ++ " packets/sec"
    { state := b', reply := "Started traffic generation to " ++ ip ++ ":" ++ intStr port1,
      launched := true, launchedArgs := some (port1, dur, rate),
      messages := [m, "<b>Traffic Generation Started</b>\n" ++ m] }

/-- stop_traffic from the source. -/
def stop_traffic (b : BotState) : StopResult :=
  if b.traffic_generation_active then
    let m := "Stopped traffic generation to " ++ pyOptStr b.current_target ++ ":"
      ++ pyOptIntStr b.current_port
    { state := { b with traffic_generation_active := false }, reply := m,
      messages := [m, "<b>Traffic Generation Stopped</b>\n" ++ m] }
  else
    { state := b, reply := "No active traffic generation to stop", messages := [] }

/-- start_monitoring: validate, reject when already active, else set the
shared state, emit the start messages and launch monitoring_thread (which
closes over ip only, hence launchedArgs is none). -/
def start_monitoring (b : BotState) (ip : String) : StartResult :=
  if !(validate_ip ip) then
    { state := b, reply := "Invalid IP address: " ++ ip, launched := false,
      launchedArgs := none, messages := [] }
  else if b.monitoring_active then
    { state := b, reply := "Monitoring is already active. Stop current monitoring first.",
      launched := false, launchedArgs := none, messages := [] }
  else
    let b' := { b with monitoring_active := true, current_target := some ip }
    let m := "Starting monitoring of " ++ ip ++ " with interval "
      ++ intStr b.config.monitoring_interval ++ " seconds"
    { state := b', reply := "Started monitoring " ++ ip, launched := true,
      launchedArgs := none, messages := [m, "<b>Monitoring Started</b>\n" ++ m] }

/-- stop_monitoring from the source. -/
def stop_monitoring (b : BotState) : StopResult :=
  if b.monitoring_active then
    { state := { b with monitoring_active := false },
      reply := "Stopping monitoring of " ++ pyOptStr b.current_target, messages := [] }
  else
    { state := b, reply := "No active monitoring to stop", messages := [] }

/-! ## set_config -/

def DEFAULT_CONFIG_keys : List String :=
  ["telegram_token", "telegram_chat_id", "monitoring_interval",
   "traffic_generation_duration", "max_packets_per_second", "default_ports", "log_file"]

/-- value.split on a separator character, as in Python str.split. -/
def splitOnChar (sep : Char) : List Char → List (List Char)
  | [] => [[]]
  | c :: rest =>
    if c = sep then [] :: splitOnChar sep rest
    else
      match splitOnChar sep rest with
      | [] => [[c]]
      | g :: gs => (c :: g) :: gs

def renderPortsList (ps : List Int) : String :=
  "[" ++ String.intercalate ", " (ps.map intStr) ++ "]"

/-- set_config from the source: reject unknown keys, convert the three
interval/rate keys with int(value), convert default_ports with
int per comma-separated item, store string keys verbatim; return the
update message or the conversion failure message. -/
def set_config (b : BotState) (key value : String) : BotState × String :=
  if !(DEFAULT_CONFIG_keys.contains key) then
    (b, "Invalid configuration key: " ++ key)
  else if key = "monitoring_interval" ∨ key = "traffic_generation_duration"
      ∨ key = "max_packets_per_second" then
    match pyIntParse value.data with
    | none => (b, "Invalid value for " ++ key ++ ". Could not convert to required type.")
    | some k =>
      let cfg := b.config
      let cfg' :=
        if key = "monitoring_interval" then { cfg with monitoring_interval := k }
        else if key = "traffic_generation_duration" then
          { cfg with traffic_generation_duration := k }
        else { cfg with max_packets_per_second := k }
      ({ b with config := cfg' }, "Configuration updated: " ++ key ++ " = " ++ intStr k)
  else if key = "default_ports" then
    let parsed := (splitOnChar (',') value.data).map pyIntParse
    if parsed.all Option.isSome then
      let ps := parsed.filterMap id
      ({ b with config := { b.config with default_ports := ps } },
       "Configuration updated: " ++ key ++ " = " ++ renderPortsList ps)
    else (b, "Invalid value for " ++ key ++ ". Could not convert to required type.")
  else
    let cfg := b.config
    let cfg' :=
      if key = "telegram_token" then { cfg with telegram_token := value }
      else if key = "telegram_chat_id" then { cfg with telegram_chat_id := value }
      else { cfg with log_file := value }
    ({ b with config := cfg' }, "Configuration updated: " ++ key ++ " = " ++ value)

/-! ## show_status -/

def show_status (b : BotState) : String :=
  let s0 := RED_BG ++ BOLD ++ " Bot Status " ++ RESET ++ "\n"
  let s1 := s0 ++ RED ++ "Running:" ++ RESET ++ " " ++ pyBoolStr b.running ++ "\n"
  let s2 := s1 ++ RED ++ "Monitoring:" ++ RESET ++ " " ++ pyBoolStr b.monitoring_active
  let s3 := if b.monitoring_active then
      s2 ++ " (Target: " ++ pyOptStr b.current_target ++ ")\n"
    else s2 ++ "\n"
  let s4 := s3 ++ RED ++ "Traffic Generation:" ++ RESET ++ " "
    ++ pyBoolStr b.traffic_generation_active
  if b.traffic_generation_active then
    s4 ++ " (Target: " ++ pyOptStr b.current_target ++ ":" ++ pyOptIntStr b.current_port ++ ")\n"
  else s4 ++ "\n"

/-! ## The traffic generation loop (traffic_thread)

One loop iteration attempts connect / count / send / close / sleep(1/pps)
inside a try block; any exception is caught, logged and penalised with
time.sleep(1).  An iteration outcome is therefore: ok (everything
succeeded, the rate sleep ran), errEarly (the raise came before the
packet_count increment, e.g. a failed connect), or errLate (the raise
came after the increment, e.g. a failed send).  Elapsed wall time is
modelled abstractly: iteration n advances the clock by adv n, the overhead
and sleep of that iteration.  pps enters the sleep as the rational 1/pps
(the source computes it in floating point; the control flow is
unaffected). -/

inductive UnitOutcome
  | ok
  | errEarly
  | errLate
deriving DecidableEq

/-- packet_count increment of one iteration. -/
def countInc : UnitOutcome → Nat
  | UnitOutcome.ok => 1
  | UnitOutcome.errEarly => 0
  | UnitOutcome.errLate => 1

/-- The in-loop sleep actually performed by one iteration: the rate sleep
1/pps on success; on any caught exception the rate sleep is skipped and
the except branch sleeps exactly 1 second. -/
def trafficIterSleep (pps : ℚ) : UnitOutcome → ℚ
  | UnitOutcome.ok => 1 / pps
  | UnitOutcome.errEarly => 1
  | UnitOutcome.errLate => 1

/-- Clock advance of iteration n: nonnegative work overhead plus the sleep. -/
def trafficAdv (pps : ℚ) (work : Nat → ℚ) (outcome : Nat → UnitOutcome) (n : Nat) : ℚ :=
  work n + trafficIterSleep pps (outcome n)

structure TrafficRun where
  count : Nat
  elapsed : ℚ
  iters : Nat
  exited : Bool
deriving DecidableEq

/-- The while loop of traffic_thread.  flag n is the value of the shared
traffic_generation_active attribute at the top of iteration n (it can be
cleared externally by stop_traffic at any time).  fuel bounds the number
of modelled iterations; exited records whether the loop left through its
guard (rather than the fuel running out). -/
def trafficLoop (duration : ℚ) (flag : Nat → Bool) (outcome : Nat → UnitOutcome)
    (adv : Nat → ℚ) : Nat → Nat → ℚ → Nat → TrafficRun
  | 0, n, e, c => { count := c, elapsed := e, iters := n, exited := false }
  | fuel + 1, n, e, c =>
    if e < duration ∧ flag n = true then
      trafficLoop duration flag outcome adv fuel (n + 1) (e + adv n) (c + countInc (outcome n))
    else { count := c, elapsed := e, iters := n, exited := true }

/-- The epilogue of traffic_thread: after the loop the thread clears the
shared flag, clears both shared target fields, and emits the completion
report with the final packet count. -/
def traffic_thread (b : BotState) (ip : String) (port : Int) (duration pps : Int)
    (flag : Nat → Bool) (outcome : Nat → UnitOutcome) (work : Nat → ℚ) (fuel : Nat) :
    TrafficRun × BotState × List String :=
  let r := trafficLoop (duration : ℚ) flag outcome
    (trafficAdv (pps : ℚ) work outcome) fuel 0 0 0
  let b' := { b with traffic_generation_active := false, current_target := none,
                     current_port := none }
  let stats := "Traffic generation completed. Sent " ++ natStr r.count
    ++ " packets to " ++ ip ++ ":" ++ intStr port
  (r, b', [stats, "<b>Traffic Generation Complete</b>\n" ++ stats])

/-! ## The monitoring loop (monitoring_thread) -/

/-- Outcome of one connect_ex port probe: either a result code (0 means
open) or an exception raised while creating, connecting or closing the
socket. -/
inductive ProbeOutcome
  | res (code : Int)
  | exn
deriving DecidableEq

def portStatusOf : ProbeOutcome → String
  | ProbeOutcome.res code => if code = 0 then "open" else "closed"
  | ProbeOutcome.exn => "error"

/-- Python dict assignment d[k] = v: overwrite in place if the key exists,
else append in insertion order. -/
def dictInsert (m : List (Int × String)) (k : Int) (v : String) : List (Int × String) :=
  if m.any (fun p => p.1 == k) then
    m.map (fun p => if p.1 == k then (k, v) else p)
  else m ++ [(k, v)]

/-- The port sweep of one monitoring cycle: iterate over the configured
ports in order, probing each (probe i is the outcome of the i-th socket
attempt of this cycle) and storing its status in the dict. -/
def monitorSweepGo (probe : Nat → ProbeOutcome) :
    Nat → List Int → List (Int × String) → List (Int × String)
  | _, [], m => m
  | i, port :: rest, m =>
    monitorSweepGo probe (i + 1) rest (dictInsert m port (portStatusOf (probe i)))

def monitorPortSweep (probe : Nat → ProbeOutcome) (ports : List Int) : List (Int × String) :=
  monitorSweepGo probe 0 ports []

def toLowerChar (c : Char) : Char :=
  if decide (65 ≤ c.toNat) && decide (c.toNat ≤ 90) then Char.ofNat (c.toNat + 32) else c

def isPrefixChars : List Char → List Char → Bool
  | [], _ => true
  | _ :: _, [] => false
  | a :: as, b :: bs => a == b && isPrefixChars as bs

def containsChars (needle : List Char) : List Char → Bool
  | [] => isPrefixChars needle []
  | c :: rest => isPrefixChars needle (c :: rest) || containsChars needle rest

/-- online classification of a cycle: the lowercased ping output does not
contain the substring unreachable. -/
def pingOnline (pingResult : String) : Bool :=
  !(containsChars (("unreachable").data) (pingResult.data.map toLowerChar))

structure CycleResult where
  online : Bool
  port_status : List (Int × String)
  report : String
deriving DecidableEq

/-- One monitoring cycle body, as a function of the configuration the
thread reads from self.config at that moment (the source dereferences
self.config inside the loop on every cycle). -/
def monitoringCycle (cfg : Config) (ip : String) (pingResult : String)
    (probe : Nat → ProbeOutcome) : CycleResult :=
  let online := pingOnline pingResult
  let ps := monitorPortSweep probe cfg.default_ports
  let report := "Monitoring Report for " ++ ip ++ ":\n"
    ++ "Online: " ++ (if online then "Yes" else "No") ++ "\n"
    ++ "Port Status:\n"
    ++ String.join (ps.map (fun pr => "  Port " ++ intStr pr.1 ++ ": " ++ pr.2 ++ "\n"))
  { online := online, port_status := ps, report := report }

/-! ## The two inter-cycle waits of monitoring_thread -/

inductive WaitEv
  | check
  | sleep (secs : Int)
deriving DecidableEq

/-- The normal inter-cycle wait: for each of interval ticks, test the
shared monitoring_active flag (breaking immediately when it is cleared)
and then sleep one second.  flag t is the flag value at the t-th check. -/
def normalWaitEvents (flag : Nat → Bool) : Nat → Nat → List WaitEv
  | 0, _ => []
  | i + 1, t =>
    WaitEv.check :: (if flag t then WaitEv.sleep 1 :: normalWaitEvents flag i (t + 1) else [])

/-- The wait taken by the except branch of the monitoring loop after a
cycle error: a single uninterrupted time.sleep of the whole interval,
with no flag check. -/
def monitorErrorWait (interval : Int) : List WaitEv := [WaitEv.sleep interval]

def monitorIntervalWait (flag : Nat → Bool) (interval : Int) (t : Nat) : List WaitEv :=
  normalWaitEvents flag interval.toNat t

def sleepTotal : List WaitEv → Int
  | [] => 0
  | WaitEv.check :: evs => sleepTotal evs
  | WaitEv.sleep s :: evs => s + sleepTotal evs

def checkCount (evs : List WaitEv) : Nat :=
  evs.countP (fun e => match e with | WaitEv.check => true | WaitEv.sleep _ => false)

/-- A wait honours the one-second stop-latency contract when every atomic
sleep it performs lasts at most one second (so the flag is re-examined at
least once per second of waiting). -/
def boundedStopLatency : List WaitEv → Bool
  | [] => true
  | WaitEv.check :: evs => boundedStopLatency evs
  | WaitEv.sleep s :: evs => decide (s ≤ 1) && boundedStopLatency evs

/-- The while guard structure of monitoring_thread: the loop keeps running
while the shared flag is true and exits at the first check that observes
false; fuel bounds the modelled iterations. -/
def monitorLoopExits (flag : Nat → Bool) : Nat → Nat → Bool
  | 0, _ => false
  | fuel + 1, n => if flag n = true then monitorLoopExits flag fuel (n + 1) else true

/-- The epilogue of monitoring_thread: clear the shared flag, clear the
shared target, emit the stop messages. -/
def monitoring_finalize (b : BotState) (ip : String) : BotState × List String :=
  ({ b with monitoring_active := false, current_target := none },
   let m := "Stopped monitoring of " ++ ip
   [m, "<b>Monitoring Stopped</b>\n" ++ m])

/-! ## Dotted-quad literals (the format named by the specification)

These definitions follow the words of the specification (four decimal
octets 0 to 255, written canonically without leading zeros), to be
compared against the behaviour of validate_ip above. -/

def octetOkB (l : List Char) : Bool :=
  !(l.isEmpty) && l.all isDigitChar && decide (digitsVal 10 0 l ≤ 255) &&
  (!(l.head? == some '0') || l == ['0'])

def isDottedQuad (l : List Char) : Bool :=
  match splitOnChar ('.') l with
  | [a, b, c, d] => octetOkB a && octetOkB b && octetOkB c && octetOkB d
  | _ => false

/-! ## Concrete demonstration states -/

def demoConfig : Config :=
  { telegram_token := "", telegram_chat_id := "", monitoring_interval := 60,
    traffic_generation_duration := 30, max_packets_per_second := 100,
    default_ports := [80, 443, 22, 3389], log_file := "bot_activity.log" }

/-- A state in which a traffic session to 1.2.3.4:80 is running. -/
def demoTrafficActive : BotState :=
  { running := true, monitoring_active := false, traffic_generation_active := true,
    current_target := some ("1.2.3.4"), current_port := some 80, config := demoConfig }

/-- A state in which a monitoring session of 8.8.8.8 is running. -/
def demoMonitorActive : BotState :=
  { running := true, monitoring_active := true, traffic_generation_active := false,
    current_target := some ("8.8.8.8"), current_port := none, config := demoConfig }

/-! # Helper lemmas -/

theorem isDigitChar_iff (c : Char) : isDigitChar c = true ↔ 48 ≤ c.toNat ∧ c.toNat ≤ 57 := by
  simp [isDigitChar]

theorem not_space_of_digit (c : Char) (h : isDigitChar c = true) : isSpaceChar c = false := by
  rw [isDigitChar_iff] at h
  simp [isSpaceChar]
  omega

theorem ne_plus_of_digit (c : Char) (h : isDigitChar c = true) : c ≠ '+' := by
  intro hc
  rw [hc] at h
  exact absurd h (by decide)

theorem ne_minus_of_digit (c : Char) (h : isDigitChar c = true) : c ≠ '-' := by
  intro hc
  rw [hc] at h
  exact absurd h (by decide)

theorem hexVal_of_digit (c : Char) (h : isDigitChar c = true) : hexVal c = c.toNat - 48 := by
  simp [hexVal, h]

theorem takeWhile_append_all (p : Char → Bool) (xs ys : List Char)
    (hx : ∀ c ∈ xs, p c = true) (hy : ∀ c cs, ys = c :: cs → p c = false) :
    (xs ++ ys).takeWhile p = xs ∧ (xs ++ ys).dropWhile p = ys := by
  induction xs with
  | nil =>
    cases ys with
    | nil => simp
    | cons y ys2 => simp [List.takeWhile_cons, List.dropWhile_cons, hy y ys2 rfl]
  | cons x xs2 ih =>
    have hx0 : p x = true := hx x (by simp)
    have hrec := ih (fun c hc => hx c (by simp [hc]))
    simp [List.takeWhile_cons, List.dropWhile_cons, hx0, hrec.1, hrec.2]

theorem octetOkB_spec (l : List Char) (h : octetOkB l = true) :
    l ≠ [] ∧ (∀ c ∈ l, isDigitChar c = true) ∧ digitsVal 10 0 l ≤ 255 ∧
      (l.head? = some '0' → l = ['0']) := by
  simp only [octetOkB, Bool.and_eq_true, Bool.or_eq_true, Bool.not_eq_true',
    List.all_eq_true, decide_eq_true_eq, beq_iff_eq] at h
  obtain ⟨⟨⟨hne, hall⟩, hval⟩, hz⟩ := h
  refine ⟨?_, hall, hval, ?_⟩
  · intro hnil
    subst hnil
    simp at hne
  · intro hhd
    rcases hz with hz | hz
    · rw [hhd] at hz
      simp at hz
    · exact hz

theorem strtoul0_octet_dot (p rs : List Char) (h : octetOkB p = true) :
    strtoul0 (p ++ '.' :: rs) = (digitsVal 10 0 p, '.' :: rs) := by
  obtain ⟨hne, hdig, _, hz⟩ := octetOkB_spec p h
  obtain ⟨a, t, rfl⟩ := List.exists_cons_of_ne_nil hne
  by_cases ha : a = '0'
  · subst ha
    have ht : t = [] := by
      have := hz rfl
      simpa using this
    subst ht
    simp [strtoul0, List.takeWhile_cons, List.dropWhile_cons, isOctChar, digitsVal]
    decide
  · have e1 : (a :: t) ++ '.' :: rs = a :: (t ++ '.' :: rs) := by simp
    have htk := takeWhile_append_all isDigitChar (a :: t) ('.' :: rs) hdig
      (by intro c cs hc; cases hc; decide)
    rw [e1]
    simp only [strtoul0, if_neg ha]
    rw [← List.cons_append, htk.1, htk.2]

theorem strtoul0_octet_nil (p : List Char) (h : octetOkB p = true) :
    strtoul0 p = (digitsVal 10 0 p, []) := by
  obtain ⟨hne, hdig, _, hz⟩ := octetOkB_spec p h
  obtain ⟨a, t, rfl⟩ := List.exists_cons_of_ne_nil hne
  by_cases ha : a = '0'
  · subst ha
    have ht : t = [] := by
      have := hz rfl
      simpa using this
    subst ht
    simp [strtoul0, digitsVal]
    decide
  · have htk := takeWhile_append_all isDigitChar (a :: t) [] hdig (by intro c cs hc; cases hc)
    simp only [List.append_nil] at htk
    simp only [strtoul0, if_neg ha]
    rw [htk.1, htk.2]

theorem maxPart_ge (r : Nat) : 255 ≤ maxPart r := by
  unfold maxPart
  have h : 256 ≤ 256 ^ (r + 1) := by
    calc (256 : Nat) = 256 ^ 1 := by norm_num
    _ ≤ 256 ^ (r + 1) := Nat.pow_le_pow_right (by norm_num) (by omega)
  omega

theorem inetAtonLoop_step (r : Nat) (p rs : List Char) (h : octetOkB p = true) :
    inetAtonLoop (r + 1) (p ++ '.' :: rs) = inetAtonLoop r rs := by
  obtain ⟨hne, hdig, hle, _⟩ := octetOkB_spec p h
  obtain ⟨a, t, rfl⟩ := List.exists_cons_of_ne_nil hne
  have ha : isDigitChar a = true := hdig a (by simp)
  have hs : strtoul0 (a :: (t ++ '.' :: rs)) = (digitsVal 10 0 (a :: t), '.' :: rs) := by
    rw [← List.cons_append]
    exact strtoul0_octet_dot (a :: t) rs h
  have h1 : ¬(4294967295 < digitsVal 10 0 (a :: t)) := by omega
  have h2 : ¬(255 < digitsVal 10 0 (a :: t)) := by omega
  rw [List.cons_append]
  simp [inetAtonLoop, ha, hs, h1, h2]

theorem inetAtonLoop_last (r : Nat) (p : List Char) (h : octetOkB p = true) :
    inetAtonLoop r p = true := by
  obtain ⟨hne, hdig, hle, _⟩ := octetOkB_spec p h
  obtain ⟨a, t, rfl⟩ := List.exists_cons_of_ne_nil hne
  have ha : isDigitChar a = true := hdig a (by simp)
  have hs := strtoul0_octet_nil (a :: t) h
  have h1 : ¬(4294967295 < digitsVal 10 0 (a :: t)) := by omega
  have h2 : digitsVal 10 0 (a :: t) ≤ maxPart r := le_trans hle (maxPart_ge r)
  simp [inetAtonLoop, ha, hs, h1, h2]

theorem inet_aton_quad (p1 p2 p3 p4 : List Char)
    (h1 : octetOkB p1 = true) (h2 : octetOkB p2 = true)
    (h3 : octetOkB p3 = true) (h4 : octetOkB p4 = true) :
    inet_aton_chars (p1 ++ '.' :: (p2 ++ '.' :: (p3 ++ '.' :: p4))) = true := by
  unfold inet_aton_chars
  show inetAtonLoop (2 + 1) (p1 ++ '.' :: (p2 ++ '.' :: (p3 ++ '.' :: p4))) = true
  rw [inetAtonLoop_step 2 p1 _ h1]
  show inetAtonLoop (1 + 1) (p2 ++ '.' :: (p3 ++ '.' :: p4)) = true
  rw [inetAtonLoop_step 1 p2 _ h2]
  show inetAtonLoop (0 + 1) (p3 ++ '.' :: p4) = true
  rw [inetAtonLoop_step 0 p3 _ h3]
  exact inetAtonLoop_last 0 p4 h4

theorem digitChar_spec : ∀ d : Nat, d < 10 →
    isDigitChar (digitChar d) = true ∧ hexVal (digitChar d) = d ∧ pyDigitVal (digitChar d) = d :=
  by decide

theorem digitsVal_append (base : Nat) (xs ys : List Char) : ∀ acc,
    digitsVal base acc (xs ++ ys) = digitsVal base (digitsVal base acc xs) ys := by
  induction xs with
  | nil => intro acc; rfl
  | cons x xs2 ih => intro acc; simp [digitsVal, ih]

theorem natDecCore_spec : ∀ fuel n, n < fuel →
    natDecCore fuel n ≠ [] ∧ (∀ c ∈ natDecCore fuel n, isDigitChar c = true) ∧
      digitsVal 10 0 (natDecCore fuel n) = n := by
  intro fuel
  induction fuel with
  | zero => intro n hn; omega
  | succ fuel2 ih =>
    intro n hn
    by_cases h10 : n < 10
    · refine ⟨by simp [natDecCore, h10], ?_, ?_⟩
      · intro c hc
        simp [natDecCore, h10] at hc
        subst hc
        exact (digitChar_spec n h10).1
      · simp [natDecCore, h10, digitsVal, (digitChar_spec n h10).2.1]
    · have hdiv : n / 10 < fuel2 := by
        have h1 : n / 10 < n := Nat.div_lt_self (by omega) (by omega)
        omega
      obtain ⟨hne, hall, hval⟩ := ih (n / 10) hdiv
      have hlt : n % 10 < 10 := Nat.mod_lt n (by omega)
      refine ⟨?_, ?_, ?_⟩
      · simp [natDecCore, h10]
      · intro c hc
        simp [natDecCore, h10] at hc
        rcases hc with hc | hc
        · exact hall c hc
        · subst hc
          exact (digitChar_spec (n % 10) hlt).1
      · simp only [natDecCore, if_neg h10]
        rw [digitsVal_append, hval]
        simp [digitsVal, (digitChar_spec (n % 10) hlt).2.1]
        omega

theorem natDec_spec (n : Nat) :
    natDec n ≠ [] ∧ (∀ c ∈ natDec n, isDigitChar c = true) ∧ digitsVal 10 0 (natDec n) = n :=
  natDecCore_spec (n + 1) n (by omega)

theorem parseDigitsUGo_digits (l : List Char) : ∀ acc, (∀ c ∈ l, isDigitChar c = true) →
    parseDigitsUGo acc l = some (digitsVal 10 acc l) := by
  induction l with
  | nil => intro acc _; rfl
  | cons c rest ih =>
    intro acc hall
    have hc : isDigitChar c = true := hall c (by simp)
    have hcu : c ≠ '_' := by
      intro he
      rw [he] at hc
      exact absurd hc (by decide)
    have hvals : hexVal c = pyDigitVal c := by
      rw [hexVal_of_digit c hc]
      rfl
    rw [parseDigitsUGo.eq_def]
    simp only [hcu, if_false, hc, if_true, digitsVal, hvals]
    exact ih (acc * 10 + pyDigitVal c) (fun d hd => hall d (by simp [hd]))

theorem parseDigitsU_digits (l : List Char) (hne : l ≠ [])
    (hall : ∀ c ∈ l, isDigitChar c = true) :
    parseDigitsU l = some (digitsVal 10 0 l) := by
  obtain ⟨c, t, rfl⟩ := List.exists_cons_of_ne_nil hne
  have hc : isDigitChar c = true := hall c (by simp)
  have hvals : hexVal c = pyDigitVal c := by
    rw [hexVal_of_digit c hc]
    rfl
  simp only [parseDigitsU, hc, if_true, digitsVal, Nat.zero_mul, Nat.zero_add, hvals]
  exact parseDigitsUGo_digits t (pyDigitVal c) (fun d hd => hall d (by simp [hd]))

theorem dropWhile_eq_self_of_head (p : Char → Bool) (l : List Char)
    (h : ∀ c cs, l = c :: cs → p c = false) : l.dropWhile p = l := by
  cases l with
  | nil => rfl
  | cons c cs => simp [List.dropWhile_cons, h c cs rfl]

theorem stripPyWs_of_no_space (l : List Char) (h : ∀ c ∈ l, isSpaceChar c = false) :
    stripPyWs l = l := by
  unfold stripPyWs
  rw [dropWhile_eq_self_of_head isSpaceChar l
    (by intro c cs hc; exact h c (by simp [hc]))]
  rw [dropWhile_eq_self_of_head isSpaceChar l.reverse
    (by intro c cs hc
        refine h c ?_
        have : c ∈ l.reverse := by simp [hc]
        simpa using this)]
  simp

theorem pyIntParse_natDec (n : Nat) : pyIntParse (natDec n) = some (n : Int) := by
  obtain ⟨hne, hall, hval⟩ := natDec_spec n
  have hstrip : stripPyWs (natDec n) = natDec n :=
    stripPyWs_of_no_space (natDec n) (fun c hc => not_space_of_digit c (hall c hc))
  obtain ⟨c, t, hct⟩ := List.exists_cons_of_ne_nil hne
  have hc : isDigitChar c = true := hall c (by simp [hct])
  unfold pyIntParse
  rw [hstrip, hct]
  simp only [if_neg (ne_plus_of_digit c hc), if_neg (ne_minus_of_digit c hc)]
  rw [← hct, parseDigitsU_digits (natDec n) hne hall, hval]
  rfl

theorem portStatusOf_cases (o : ProbeOutcome) :
    portStatusOf o = "open" ∨ portStatusOf o = "closed" ∨ portStatusOf o = "error" := by
  cases o with
  | res code =>
    by_cases h : code = 0
    · left
      simp [portStatusOf, h]
    · right
      left
      simp [portStatusOf, h]
  | exn =>
    right
    right
    rfl

theorem map_fst_overwrite (m : List (Int × String)) (k : Int) (v : String) :
    (m.map (fun p => if p.1 == k then (k, v) else p)).map Prod.fst = m.map Prod.fst := by
  induction m with
  | nil => rfl
  | cons p m2 ih =>
    simp only [List.map_cons, ih]
    congr 1
    by_cases hp : p.1 == k
    · have hk : p.1 = k := beq_iff_eq.mp hp
      simp [hp, hk]
    · simp [hp]

theorem dictInsert_keys_mem (m : List (Int × String)) (k : Int) (v : String) (x : Int) :
    x ∈ (dictInsert m k v).map Prod.fst ↔ x ∈ m.map Prod.fst ∨ x = k := by
  unfold dictInsert
  by_cases h : m.any (fun p => p.1 == k) = true
  · rw [if_pos h, map_fst_overwrite]
    constructor
    · intro hx
      left
      exact hx
    · intro hx
      rcases hx with hx | hx
      · exact hx
      · subst hx
        simp only [List.any_eq_true, beq_iff_eq] at h
        obtain ⟨p, hp, hpk⟩ := h
        rw [← hpk]
        exact List.mem_map_of_mem Prod.fst hp
  · rw [if_neg h]
    simp [List.map_append]

theorem dictInsert_keys_nodup (m : List (Int × String)) (k : Int) (v : String)
    (h : (m.map Prod.fst).Nodup) : ((dictInsert m k v).map Prod.fst).Nodup := by
  unfold dictInsert
  by_cases ha : m.any (fun p => p.1 == k) = true
  · rw [if_pos ha, map_fst_overwrite]
    exact h
  · rw [if_neg ha, List.map_append]
    refine List.Nodup.append h (by simp) ?_
    intro x hx1 hx2
    simp only [List.map_cons, List.map_nil, List.mem_singleton] at hx2
    subst hx2
    simp only [List.mem_map] at hx1
    obtain ⟨p, hp, hpk⟩ := hx1
    simp only [List.any_eq_true, beq_iff_eq] at ha
    exact ha ⟨p, hp, hpk⟩

theorem dictInsert_values (m : List (Int × String)) (k : Int) (v : String) :
    ∀ pr ∈ dictInsert m k v, pr ∈ m ∨ pr.2 = v := by
  intro pr hpr
  unfold dictInsert at hpr
  by_cases h : m.any (fun p => p.1 == k) = true
  · rw [if_pos h] at hpr
    simp only [List.mem_map] at hpr
    obtain ⟨q, hq, hqe⟩ := hpr
    by_cases hqk : q.1 == k
    · right
      rw [← hqe]
      simp [hqk]
    · left
      rw [← hqe]
      simp only [hqk, if_false]  -- hmm Bool cond
      exact hq
  · rw [if_neg h] at hpr
    simp only [List.mem_append, List.mem_singleton] at hpr
    rcases hpr with hpr | hpr
    · left
      exact hpr
    · right
      rw [hpr]

theorem monitorSweepGo_spec (probe : Nat → ProbeOutcome) : ∀ ports : List Int, ∀ i m,
    ((m.map Prod.fst).Nodup → ((monitorSweepGo probe i ports m).map Prod.fst).Nodup)
    ∧ (∀ x, x ∈ (monitorSweepGo probe i ports m).map Prod.fst ↔
        x ∈ m.map Prod.fst ∨ x ∈ ports)
    ∧ (∀ pr ∈ monitorSweepGo probe i ports m,
        pr ∈ m ∨ pr.2 = "open" ∨ pr.2 = "closed" ∨ pr.2 = "error") := by
  intro ports
  induction ports with
  | nil =>
    intro i m
    refine ⟨fun h => h, ?_, ?_⟩
    · intro x
      simp [monitorSweepGo]
    · intro pr hpr
      left
      exact hpr
  | cons port rest ih =>
    intro i m
    have hred : monitorSweepGo probe i (port :: rest) m =
        monitorSweepGo probe (i + 1) rest (dictInsert m port (portStatusOf (probe i))) := rfl
    obtain ⟨ihN, ihM, ihV⟩ := ih (i + 1) (dictInsert m port (portStatusOf (probe i)))
    refine ⟨?_, ?_, ?_⟩
    · intro h
      rw [hred]
      exact ihN (dictInsert_keys_nodup _ _ _ h)
    · intro x
      rw [hred, ihM x, dictInsert_keys_mem]
      simp only [List.mem_cons]
      tauto
    · intro pr hpr
      rw [hred] at hpr
      rcases ihV pr hpr with hin | hst
      · rcases dictInsert_values m port _ pr hin with h2 | h2
        · left
          exact h2
        · right
          rw [h2]
          exact portStatusOf_cases (probe i)
      · right
        exact hst

theorem trafficLoop_exit_sound (d : ℚ) (flag : Nat → Bool) (oc : Nat → UnitOutcome)
    (adv : Nat → ℚ) : ∀ fuel n e c,
    (trafficLoop d flag oc adv fuel n e c).exited = true →
    ¬((trafficLoop d flag oc adv fuel n e c).elapsed < d
      ∧ flag (trafficLoop d flag oc adv fuel n e c).iters = true) := by
  intro fuel
  induction fuel with
  | zero =>
    intro n e c h
    simp [trafficLoop] at h
  | succ fuel2 ih =>
    intro n e c h
    by_cases hg : e < d ∧ flag n = true
    · simp only [trafficLoop, hg, if_true] at h ⊢
      exact ih _ _ _ h
    · simp only [trafficLoop, hg, if_false] at h ⊢
      exact not_false

theorem trafficLoop_stop_terminates (d : ℚ) (flag : Nat → Bool) (oc : Nat → UnitOutcome)
    (adv : Nat → ℚ) (N : Nat) (hN : ∀ m, N ≤ m → flag m = false) :
    ∀ fuel n e c, n ≤ N → N + 1 ≤ fuel + n →
    (trafficLoop d flag oc adv fuel n e c).exited = true := by
  intro fuel
  induction fuel with
  | zero =>
    intro n e c h1 h2
    omega
  | succ fuel2 ih =>
    intro n e c h1 h2
    by_cases hg : e < d ∧ flag n = true
    · have hnN : n < N := by
        rcases Nat.lt_or_ge n N with h | h
        · exact h
        · rw [hN n h] at hg
          simp at hg
      simp only [trafficLoop, hg, if_true]
      exact ih (n + 1) _ _ (by omega) (by omega)
    · simp [trafficLoop, hg]

theorem trafficLoop_duration_terminates (d : ℚ) (flag : Nat → Bool) (oc : Nat → UnitOutcome)
    (adv : Nat → ℚ) (eps : ℚ) (hadv : ∀ m, eps ≤ adv m) :
    ∀ (F n : Nat) (e : ℚ) (c : Nat), d ≤ e + (F : ℚ) * eps →
    (trafficLoop d flag oc adv (F + 1) n e c).exited = true := by
  intro F
  induction F with
  | zero =>
    intro n e c hd
    push_cast at hd
    simp only [zero_mul, add_zero] at hd
    have hng : ¬(e < d ∧ flag n = true) := by
      intro hg
      exact absurd hd (not_le.mpr hg.1)
    simp [trafficLoop, hng]
  | succ F2 ih =>
    intro n e c hd
    by_cases hg : e < d ∧ flag n = true
    · have hd2 : d ≤ (e + adv n) + (F2 : ℚ) * eps := by
        have h1 := hadv n
        push_cast at hd
        nlinarith [hd, h1]
      simp only [trafficLoop, hg, if_true]
      exact ih (n + 1) (e + adv n) _ hd2
    · simp [trafficLoop, hg]

theorem monitorLoopExits_sound (flag : Nat → Bool) : ∀ fuel n,
    monitorLoopExits flag fuel n = true → ∃ k, n ≤ k ∧ k < n + fuel ∧ flag k = false := by
  intro fuel
  induction fuel with
  | zero =>
    intro n h
    simp [monitorLoopExits] at h
  | succ fuel2 ih =>
    intro n h
    by_cases hf : flag n = true
    · simp only [monitorLoopExits, hf, if_true] at h
      obtain ⟨k, h1, h2, h3⟩ := ih (n + 1) h
      exact ⟨k, by omega, by omega, h3⟩
    · exact ⟨n, le_refl n, by omega, by simpa using hf⟩

theorem monitorLoopExits_terminates (flag : Nat → Bool) (N : Nat) (hN : flag N = false) :
    ∀ fuel n, n ≤ N → N + 1 ≤ fuel + n → monitorLoopExits flag fuel n = true := by
  intro fuel
  induction fuel with
  | zero =>
    intro n h1 h2
    omega
  | succ fuel2 ih =>
    intro n h1 h2
    by_cases hf : flag n = true
    · have hne : n ≠ N := by
        intro he
        rw [he, hN] at hf
        exact absurd hf (by simp)
      simp only [monitorLoopExits, hf, if_true]
      exact ih (n + 1) (by omega) (by omega)
    · simp [monitorLoopExits, hf]

theorem normalWait_bounded (flag : Nat → Bool) : ∀ i t,
    boundedStopLatency (normalWaitEvents flag i t) = true := by
  intro i
  induction i with
  | zero =>
    intro t
    rfl
  | succ i2 ih =>
    intro t
    by_cases hf : flag t = true
    · simp only [normalWaitEvents, hf, if_true, boundedStopLatency]
      simp [ih (t + 1)]
    · simp [normalWaitEvents, hf, boundedStopLatency]

theorem normalWait_stop_latency (flag : Nat → Bool) (tS : Nat)
    (h : ∀ u, tS ≤ u → flag u = false) : ∀ i t,
    sleepTotal (normalWaitEvents flag i t) ≤ ((tS - t : Nat) : Int) := by
  intro i
  induction i with
  | zero =>
    intro t
    simp [normalWaitEvents, sleepTotal]
  | succ i2 ih =>
    intro t
    by_cases hf : flag t = true
    · have htS : t < tS := by
        rcases Nat.lt_or_ge t tS with hlt | hge
        · exact hlt
        · rw [h t hge] at hf
          exact absurd hf (by simp)
      simp only [normalWaitEvents, hf, if_true, sleepTotal]
      have hrec := ih (t + 1)
      omega
    · simp [normalWaitEvents, hf, sleepTotal]

theorem normalWait_sleep_le_interval (flag : Nat → Bool) : ∀ i t,
    sleepTotal (normalWaitEvents flag i t) ≤ (i : Int) := by
  intro i
  induction i with
  | zero =>
    intro t
    simp [normalWaitEvents, sleepTotal]
  | succ i2 ih =>
    intro t
    by_cases hf : flag t = true
    · simp only [normalWaitEvents, hf, if_true, sleepTotal]
      have hrec := ih (t + 1)
      omega
    · simp only [normalWaitEvents, hf, if_false, Bool.false_eq_true, sleepTotal]
      omega

/-! # Claim theorems -/

/-- Claim C1 counterexample: with a traffic session already active
(target 1.2.3.4:80), a second generate_traffic call does not return a
conflict result: it launches another worker, overwrites the shared
target and port, and returns a started reply. -/
theorem c1_counterexample :
    demoTrafficActive.traffic_generation_active = true
    ∧ demoTrafficActive.current_target = some ("1.2.3.4")
    ∧ (generate_traffic demoTrafficActive ("5.6.7.8") (some 81) (some 1) (some 1) 0).launched
        = true
    ∧ (generate_traffic demoTrafficActive ("5.6.7.8") (some 81) (some 1) (some 1) 0).state.current_target
        = some ("5.6.7.8")
    ∧ (generate_traffic demoTrafficActive ("5.6.7.8") (some 81) (some 1) (some 1) 0).state.current_port
        = some 81
    ∧ (generate_traffic demoTrafficActive ("5.6.7.8") (some 81) (some 1) (some 1) 0).reply
        = "Started traffic generation to 5.6.7.8:81" := by
  decide

/-- Claim C1 (amended): starting a monitoring session with a valid target
while monitoring is active returns the conflict reply, changes no state
and launches no worker; a traffic start is never conflict-checked: even
while a traffic session is active, a valid request overwrites the shared
target, port and active flag and launches another worker. -/
theorem c1_amended :
    (∀ (b : BotState) (ip : String), validate_ip ip = true → b.monitoring_active = true →
      start_monitoring b ip =
        { state := b, reply := "Monitoring is already active. Stop current monitoring first.",
          launched := false, launchedArgs := none, messages := [] })
    ∧ (∀ (b : BotState) (ip : String) (p : Int) (duration pps : Option Int) (pick : Nat),
        validate_ip ip = true → 1 ≤ p → p ≤ 65535 →
        (generate_traffic b ip (some p) duration pps pick).launched = true
        ∧ (generate_traffic b ip (some p) duration pps pick).state.current_target = some ip
        ∧ (generate_traffic b ip (some p) duration pps pick).state.current_port = some p
        ∧ (generate_traffic b ip (some p) duration pps pick).state.traffic_generation_active
            = true) := by
  constructor
  · intro b ip h1 h2
    simp [start_monitoring, h1, h2]
  · intro b ip p duration pps pick h1 hp1 hp2
    have hp0 : ¬(p == 0) = true := by
      simp only [beq_iff_eq]
      omega
    have hval : validate_port_int p = true := by
      simp only [validate_port_int, decide_eq_true_eq]
      omega
    have htr : pyTruthyInt (some p) = true := by
      simp [pyTruthyInt, hp0]
    simp [generate_traffic, h1, htr, hval]

theorem c1_witness :
    start_monitoring demoMonitorActive ("1.1.1.1") =
      { state := demoMonitorActive,
        reply := "Monitoring is already active. Stop current monitoring first.",
        launched := false, launchedArgs := none, messages := [] } :=
  c1_amended.1 demoMonitorActive ("1.1.1.1") (by decide) (by decide)

/-- Claim C2 counterexample: while a monitoring session is active, a
setconfig of default_ports changes the port set that the very next
monitoring cycle sweeps (the thread reads self.config live each cycle),
so the running session is not isolated from mid-session edits. -/
theorem c2_counterexample :
    demoMonitorActive.monitoring_active = true
    ∧ demoMonitorActive.config.default_ports = [80, 443, 22, 3389]
    ∧ (set_config demoMonitorActive ("default_ports") ("9999")).1.monitoring_active = true
    ∧ ((monitoringCycle (set_config demoMonitorActive ("default_ports") ("9999")).1.config
          ("8.8.8.8") ("") (fun _ => ProbeOutcome.exn)).port_status.map Prod.fst) = [9999]
    ∧ ((monitoringCycle demoMonitorActive.config ("8.8.8.8") ("")
          (fun _ => ProbeOutcome.exn)).port_status.map Prod.fst) = [80, 443, 22, 3389] := by
  decide

/-- Claim C2 (amended): the traffic session snapshots its port, duration
and rate at start time (the worker closes over those locals, so later
setconfig edits cannot reach it), but the monitoring session re-reads the
live configuration on every cycle: the ports swept in a cycle are exactly
the default_ports of the configuration as it stands at that cycle, and
the worker receives no start-time argument snapshot. -/
theorem c2_amended :
    (∀ (b : BotState) (ip : String) (pick : Nat), validate_ip ip = true →
      (generate_traffic b ip none none none pick).launchedArgs =
        some (listGetMod b.config.default_ports pick, b.config.traffic_generation_duration,
              b.config.max_packets_per_second))
    ∧ (∀ (b : BotState) (ip : String), validate_ip ip = true → b.monitoring_active = false →
        (start_monitoring b ip).launchedArgs = none)
    ∧ (∀ (cfg : Config) (ip ping : String) (probe : Nat → ProbeOutcome) (x : Int),
        x ∈ (monitoringCycle cfg ip ping probe).port_status.map Prod.fst
          ↔ x ∈ cfg.default_ports) := by
  refine ⟨?_, ?_, ?_⟩
  · intro b ip pick h1
    simp [generate_traffic, h1, pyTruthyInt]
  · intro b ip h1 h2
    simp [start_monitoring, h1, h2]
  · intro cfg ip ping probe x
    have hs := (monitorSweepGo_spec probe cfg.default_ports 0 []).2.1 x
    simpa [monitoringCycle, monitorPortSweep] using hs

theorem c2_witness :
    (generate_traffic demoMonitorActive ("4.4.4.4") none none none 0).launchedArgs =
      some (listGetMod demoMonitorActive.config.default_ports 0,
            demoMonitorActive.config.traffic_generation_duration,
            demoMonitorActive.config.max_packets_per_second) :=
  c2_amended.1 demoMonitorActive ("4.4.4.4") 0 (by decide)

/-- Claim C3 counterexample: at rate 10, a failed unit of work sleeps
exactly 1 second; the 1/rate sleep claimed to happen regardless of
success or failure does not occur on the failure path (neither alone nor
added to the penalty). -/
theorem c3_counterexample :
    trafficIterSleep 10 UnitOutcome.errEarly = 1
    ∧ ¬(trafficIterSleep 10 UnitOutcome.errEarly = 1 / 10)
    ∧ ¬(trafficIterSleep 10 UnitOutcome.errEarly = 1 / 10 + 1) := by
  refine ⟨rfl, ?_, ?_⟩ <;> norm_num [trafficIterSleep]

/-- Claim C3 (amended): on a successful iteration the loop sleeps 1/rate;
on a caught unit-of-work error the rate sleep is skipped and the except
branch logs and sleeps exactly 1 second before retrying; an error never
terminates the loop, which only exits through its duration/flag guard. -/
theorem c3_amended :
    (∀ pps : ℚ, trafficIterSleep pps UnitOutcome.ok = 1 / pps)
    ∧ (∀ pps : ℚ, trafficIterSleep pps UnitOutcome.errEarly = 1
        ∧ trafficIterSleep pps UnitOutcome.errLate = 1)
    ∧ countInc UnitOutcome.errEarly = 0
    ∧ countInc UnitOutcome.errLate = 1
    ∧ (∀ (d : ℚ) (flag : Nat → Bool) (oc : Nat → UnitOutcome) (adv : Nat → ℚ) fuel n e c,
        (trafficLoop d flag oc adv fuel n e c).exited = true →
        ¬((trafficLoop d flag oc adv fuel n e c).elapsed < d
          ∧ flag (trafficLoop d flag oc adv fuel n e c).iters = true)) := by
  exact ⟨fun _ => rfl, fun _ => ⟨rfl, rfl⟩, rfl, rfl, trafficLoop_exit_sound⟩

theorem c3_witness :
    ¬((trafficLoop 0 (fun _ => true) (fun _ => UnitOutcome.errEarly) (fun _ => 1) 1 0 0 0).elapsed < 0
      ∧ (fun _ => true) ((trafficLoop 0 (fun _ => true) (fun _ => UnitOutcome.errEarly)
          (fun _ => 1) 1 0 0 0).iters) = true) :=
  c3_amended.2.2.2.2 0 (fun _ => true) (fun _ => UnitOutcome.errEarly) (fun _ => 1) 1 0 0 0
    (by decide)

/-- Claim C4: both loops exit exactly through their guard (the traffic
loop when elapsed time reaches the duration or the shared flag is false,
reachable with bounded fuel both after a stop and after the duration has
been covered; the monitoring loop exactly at a check observing a cleared
flag), and on every exit the thread epilogue clears the active flag and
emits the final count report (traffic) or the stop report (monitoring),
so no exit path leaves active set for a dead worker. -/
theorem c4_loop_exit_contract :
    (∀ (d : ℚ) (flag : Nat → Bool) (oc : Nat → UnitOutcome) (adv : Nat → ℚ) fuel n e c,
      (trafficLoop d flag oc adv fuel n e c).exited = true →
      ¬((trafficLoop d flag oc adv fuel n e c).elapsed < d
        ∧ flag (trafficLoop d flag oc adv fuel n e c).iters = true))
    ∧ (∀ (d : ℚ) (flag : Nat → Bool) (oc : Nat → UnitOutcome) (adv : Nat → ℚ) (N : Nat),
        (∀ m, N ≤ m → flag m = false) → ∀ fuel n e c, n ≤ N → N + 1 ≤ fuel + n →
        (trafficLoop d flag oc adv fuel n e c).exited = true)
    ∧ (∀ (d : ℚ) (flag : Nat → Bool) (oc : Nat → UnitOutcome) (adv : Nat → ℚ) (eps : ℚ),
        (∀ m, eps ≤ adv m) → ∀ (F n : Nat) (e : ℚ) (c : Nat), d ≤ e + (F : ℚ) * eps →
        (trafficLoop d flag oc adv (F + 1) n e c).exited = true)
    ∧ (∀ (b : BotState) (ip : String) (port duration pps : Int) (flag : Nat → Bool)
          (oc : Nat → UnitOutcome) (work : Nat → ℚ) (fuel : Nat),
        (traffic_thread b ip port duration pps flag oc work fuel).2.1.traffic_generation_active
            = false
        ∧ (traffic_thread b ip port duration pps flag oc work fuel).2.2 =
            ["Traffic generation completed. Sent "
                ++ natStr (traffic_thread b ip port duration pps flag oc work fuel).1.count
                ++ " packets to " ++ ip ++ ":" ++ intStr port,
             "<b>Traffic Generation Complete</b>\n" ++ ("Traffic generation completed. Sent "
                ++ natStr (traffic_thread b ip port duration pps flag oc work fuel).1.count
                ++ " packets to " ++ ip ++ ":" ++ intStr port)])
    ∧ (∀ (flag : Nat → Bool) fuel n, monitorLoopExits flag fuel n = true →
        ∃ k, n ≤ k ∧ k < n + fuel ∧ flag k = false)
    ∧ (∀ (flag : Nat → Bool) (N : Nat), flag N = false → ∀ fuel n, n ≤ N →
        N + 1 ≤ fuel + n → monitorLoopExits flag fuel n = true)
    ∧ (∀ (b : BotState) (ip : String),
        (monitoring_finalize b ip).1.monitoring_active = false
        ∧ (monitoring_finalize b ip).2 = ["Stopped monitoring of " ++ ip,
            "<b>Monitoring Stopped</b>\n" ++ ("Stopped monitoring of " ++ ip)]) := by
  refine ⟨trafficLoop_exit_sound, ?_, ?_, ?_, ?_, ?_, ?_⟩
  · intro d flag oc adv N hN
    exact trafficLoop_stop_terminates d flag oc adv N hN
  · intro d flag oc adv eps hadv
    exact trafficLoop_duration_terminates d flag oc adv eps hadv
  · intro b ip port duration pps flag oc work fuel
    exact ⟨rfl, rfl⟩
  · exact monitorLoopExits_sound
  · intro flag N hN
    exact monitorLoopExits_terminates flag N hN
  · intro b ip
    exact ⟨rfl, rfl⟩

theorem c4_witness :
    monitorLoopExits (fun _ => false) 1 0 = true :=
  c4_loop_exit_contract.2.2.2.2.2.1 (fun _ => false) 0 rfl 1 0 (by omega) (by omega)

/-- Claim C5 counterexample: validate_ip accepts the shorthand numbers
and dots forms 1 and 127.1, which are not dotted-quad literals, so it
does not fail on every non-dotted-quad string. -/
theorem c5_counterexample :
    validate_ip ("1") = true ∧ isDottedQuad (("1").data) = false
    ∧ validate_ip ("127.1") = true ∧ isDottedQuad (("127.1").data) = false := by
  decide

/-- Claim C5 (amended): validate_ip succeeds on every well-formed
dotted-quad literal (four canonical decimal octets 0 to 255), but not
only on those: the classic numbers-and-dots shorthand accepted by
inet_aton (such as 1 or 127.1) also succeeds, while hostnames, IPv6
literals and out-of-range quads fail; the check is pure and never
resolves names. -/
theorem c5_amended :
    (∀ p1 p2 p3 p4 : List Char, octetOkB p1 = true → octetOkB p2 = true →
      octetOkB p3 = true → octetOkB p4 = true →
      validate_ip (String.mk (p1 ++ '.' :: (p2 ++ '.' :: (p3 ++ '.' :: p4)))) = true)
    ∧ validate_ip ("10.0.0.1") = true
    ∧ validate_ip ("1") = true
    ∧ validate_ip ("example.com") = false
    ∧ validate_ip ("::1") = false
    ∧ validate_ip ("999.999.999.999") = false := by
  refine ⟨?_, by decide, by decide, by decide, by decide, by decide⟩
  intro p1 p2 p3 p4 h1 h2 h3 h4
  show inet_aton_chars (p1 ++ '.' :: (p2 ++ '.' :: (p3 ++ '.' :: p4))) = true
  exact inet_aton_quad p1 p2 p3 p4 h1 h2 h3 h4

theorem c5_witness :
    validate_ip (String.mk (['1', '0'] ++ '.' :: (['0'] ++ '.' :: (['0'] ++ '.' :: ['1']))))
      = true :=
  c5_amended.1 ['1', '0'] ['0'] ['0'] ['1'] (by decide) (by decide) (by decide) (by decide)

/-- Claim C6: validate_port succeeds exactly on the strings that Python
int parses to an integer in the range 1 to 65535; every in-range integer,
written in decimal, succeeds. -/
theorem c6_port_validation :
    (∀ s : String, validate_port s = true ↔
      ∃ k : Int, pyIntParse s.data = some k ∧ 1 ≤ k ∧ k ≤ 65535)
    ∧ (∀ n : Nat, 1 ≤ n → n ≤ 65535 → validate_port (String.mk (natDec n)) = true) := by
  constructor
  · intro s
    unfold validate_port
    cases hp : pyIntParse s.data with
    | none => simp
    | some k => simp [decide_eq_true_eq]
  · intro n h1 h2
    unfold validate_port
    rw [show (String.mk (natDec n)).data = natDec n from rfl, pyIntParse_natDec]
    simp only [decide_eq_true_eq]
    omega

theorem c6_witness : validate_port (String.mk (natDec 80)) = true :=
  c6_port_validation.2 80 (by omega) (by omega)

/-- Claim C7: for both session kinds, stop when active only clears the
active flag; stop when inactive returns the fixed nothing-to-stop reply
and changes no state; and a second stop after any stop is always that
no-op, so stop is idempotent and never an error. -/
theorem c7_stop_idempotent :
    (∀ b : BotState, b.traffic_generation_active = true →
      (stop_traffic b).state = { b with traffic_generation_active := false })
    ∧ (∀ b : BotState, b.traffic_generation_active = false →
      stop_traffic b =
        { state := b, reply := "No active traffic generation to stop", messages := [] })
    ∧ (∀ b : BotState, b.monitoring_active = true →
      (stop_monitoring b).state = { b with monitoring_active := false })
    ∧ (∀ b : BotState, b.monitoring_active = false →
      stop_monitoring b =
        { state := b, reply := "No active monitoring to stop", messages := [] })
    ∧ (∀ b : BotState, (stop_traffic b).state.traffic_generation_active = false
        ∧ stop_traffic ((stop_traffic b).state) =
          { state := (stop_traffic b).state,
            reply := "No active traffic generation to stop", messages := [] })
    ∧ (∀ b : BotState, (stop_monitoring b).state.monitoring_active = false
        ∧ stop_monitoring ((stop_monitoring b).state) =
          { state := (stop_monitoring b).state,
            reply := "No active monitoring to stop", messages := [] }) := by
  have hT_act : ∀ b : BotState, b.traffic_generation_active = true →
      (stop_traffic b).state = { b with traffic_generation_active := false } := by
    intro b h
    simp [stop_traffic, h]
  have hT_inact : ∀ b : BotState, b.traffic_generation_active = false →
      stop_traffic b =
        { state := b, reply := "No active traffic generation to stop", messages := [] } := by
    intro b h
    simp [stop_traffic, h]
  have hM_act : ∀ b : BotState, b.monitoring_active = true →
      (stop_monitoring b).state = { b with monitoring_active := false } := by
    intro b h
    simp [stop_monitoring, h]
  have hM_inact : ∀ b : BotState, b.monitoring_active = false →
      stop_monitoring b =
        { state := b, reply := "No active monitoring to stop", messages := [] } := by
    intro b h
    simp [stop_monitoring, h]
  have hT_off : ∀ b : BotState, (stop_traffic b).state.traffic_generation_active = false := by
    intro b
    by_cases h : b.traffic_generation_active = true
    · rw [hT_act b h]
    · have h2 : b.traffic_generation_active = false := by
        cases hb : b.traffic_generation_active
        · rfl
        · exact absurd hb h
      rw [hT_inact b h2]
      exact h2
  have hM_off : ∀ b : BotState, (stop_monitoring b).state.monitoring_active = false := by
    intro b
    by_cases h : b.monitoring_active = true
    · rw [hM_act b h]
    · have h2 : b.monitoring_active = false := by
        cases hb : b.monitoring_active
        · rfl
        · exact absurd hb h
      rw [hM_inact b h2]
      exact h2
  refine ⟨hT_act, hT_inact, hM_act, hM_inact, ?_, ?_⟩
  · intro b
    exact ⟨hT_off b, hT_inact _ (hT_off b)⟩
  · intro b
    exact ⟨hM_off b, hM_inact _ (hM_off b)⟩

theorem c7_witness :
    stop_traffic demoMonitorActive =
      { state := demoMonitorActive,
        reply := "No active traffic generation to stop", messages := [] } :=
  c7_stop_idempotent.2.1 demoMonitorActive rfl

/-- Claim C8: the per-cycle port report maps exactly the configured port
set (each configured port present, nothing else, no duplicate entries),
and every entry carries exactly one of the three statuses open, closed
or error. -/
theorem c8_report_port_statuses :
    ∀ (cfg : Config) (ip ping : String) (probe : Nat → ProbeOutcome),
      ((monitoringCycle cfg ip ping probe).port_status.map Prod.fst).Nodup
      ∧ (∀ x, x ∈ (monitoringCycle cfg ip ping probe).port_status.map Prod.fst
          ↔ x ∈ cfg.default_ports)
      ∧ (∀ pr ∈ (monitoringCycle cfg ip ping probe).port_status,
          pr.2 = "open" ∨ pr.2 = "closed" ∨ pr.2 = "error") := by
  intro cfg ip ping probe
  have hs := monitorSweepGo_spec probe cfg.default_ports 0 []
  have hps : (monitoringCycle cfg ip ping probe).port_status =
      monitorSweepGo probe 0 cfg.default_ports [] := rfl
  refine ⟨?_, ?_, ?_⟩
  · rw [hps]
    exact hs.1 (by simp)
  · intro x
    rw [hps]
    have := hs.2.1 x
    simpa using this
  · intro pr hpr
    rw [hps] at hpr
    rcases hs.2.2 pr hpr with h | h
    · simp at h
    · exact h

theorem c8_witness :
    (80 : Int) ∈ (monitoringCycle demoConfig ("8.8.8.8") ("")
      (fun _ => ProbeOutcome.res 0)).port_status.map Prod.fst :=
  ((c8_report_port_statuses demoConfig ("8.8.8.8") ("")
    (fun _ => ProbeOutcome.res 0)).2.1 80).mpr (by decide)

/-- Claim C9 counterexample: the wait taken after a monitoring cycle
error with the default 60 second interval is one uninterrupted 60 second
sleep containing no flag check at all, so the flag is not checked once
per second during that wait and a stop issued then is not honoured
within 1 second. -/
theorem c9_counterexample :
    monitorErrorWait 60 = [WaitEv.sleep 60]
    ∧ checkCount (monitorErrorWait 60) = 0
    ∧ sleepTotal (monitorErrorWait 60) = 60
    ∧ boundedStopLatency (monitorErrorWait 60) = false := by
  decide

/-- Claim C9 (amended): the normal inter-cycle wait sleeps in one-second
ticks with a flag check before each tick, so once the flag is cleared the
remaining sleep of that wait is bounded by the time already elapsed
(stop honoured within a second) and by the interval; the error-path wait
instead performs a single sleep of the whole interval with no checks. -/
theorem c9_amended :
    (∀ (flag : Nat → Bool) (interval : Int) (t : Nat),
      boundedStopLatency (monitorIntervalWait flag interval t) = true)
    ∧ (∀ (flag : Nat → Bool) (tS : Nat), (∀ u, tS ≤ u → flag u = false) →
        ∀ (interval : Int) (t : Nat),
        sleepTotal (monitorIntervalWait flag interval t) ≤ ((tS - t : Nat) : Int))
    ∧ (∀ (flag : Nat → Bool) (interval : Int) (t : Nat),
        sleepTotal (monitorIntervalWait flag interval t) ≤ (interval.toNat : Int))
    ∧ (∀ interval : Int, checkCount (monitorErrorWait interval) = 0
        ∧ sleepTotal (monitorErrorWait interval) = interval) := by
  refine ⟨?_, ?_, ?_, ?_⟩
  · intro flag interval t
    exact normalWait_bounded flag interval.toNat t
  · intro flag tS h interval t
    exact normalWait_stop_latency flag tS h interval.toNat t
  · intro flag interval t
    exact normalWait_sleep_le_interval flag interval.toNat t
  · intro interval
    constructor
    · rfl
    · simp [monitorErrorWait, sleepTotal]

theorem c9_witness :
    sleepTotal (monitorIntervalWait (fun _ => false) 60 0) ≤ ((0 - 0 : Nat) : Int) :=
  c9_amended.2.1 (fun _ => false) 0 (fun _ _ => rfl) 60 0

/-- Claim C10: the two session kinds share the single current_target
field: starting a monitoring session (valid target, monitor idle)
overwrites the target while leaving the traffic flag and port in place,
so status then renders the traffic line with the monitoring target; and
each thread epilogue clears the shared target unconditionally, even while
the other kind is still active. -/
theorem c10_shared_target_interference :
    (∀ (b : BotState) (ip : String), validate_ip ip = true → b.monitoring_active = false →
      (start_monitoring b ip).state.current_target = some ip
      ∧ (start_monitoring b ip).state.traffic_generation_active = b.traffic_generation_active
      ∧ (start_monitoring b ip).state.current_port = b.current_port)
    ∧ (∀ (b : BotState) (ip : String) (port duration pps : Int) (flag : Nat → Bool)
          (oc : Nat → UnitOutcome) (work : Nat → ℚ) (fuel : Nat),
        (traffic_thread b ip port duration pps flag oc work fuel).2.1.current_target = none
        ∧ (traffic_thread b ip port duration pps flag oc work fuel).2.1.current_port = none
        ∧ (traffic_thread b ip port duration pps flag oc work fuel).2.1.monitoring_active
            = b.monitoring_active)
    ∧ (∀ (b : BotState) (ip : String),
        (monitoring_finalize b ip).1.current_target = none
        ∧ (monitoring_finalize b ip).1.traffic_generation_active
            = b.traffic_generation_active)
    ∧ ((start_monitoring demoTrafficActive ("5.6.7.8")).state.traffic_generation_active = true
        ∧ containsChars (("(Target: 5.6.7.8:80)").data)
            ((show_status ((start_monitoring demoTrafficActive ("5.6.7.8")).state)).data) = true
        ∧ containsChars (("1.2.3.4").data)
            ((show_status ((start_monitoring demoTrafficActive ("5.6.7.8")).state)).data)
            = false) := by
  refine ⟨?_, ?_, ?_, by decide⟩
  · intro b ip h1 h2
    simp [start_monitoring, h1, h2]
  · intro b ip port duration pps flag oc work fuel
    exact ⟨rfl, rfl, rfl⟩
  · intro b ip
    exact ⟨rfl, rfl⟩

theorem c10_witness :
    (start_monitoring demoTrafficActive ("5.6.7.8")).state.current_target = some ("5.6.7.8")
    ∧ (start_monitoring demoTrafficActive ("5.6.7.8")).state.traffic_generation_active
        = demoTrafficActive.traffic_generation_active
    ∧ (start_monitoring demoTrafficActive ("5.6.7.8")).state.current_port
        = demoTrafficActive.current_port :=
  c10_shared_target_interference.1 demoTrafficActive ("5.6.7.8") (by decide) (by decide)

end TrafficBot
